import Mathlib

/-!
Shallow embedding of the homebridge-eo-mini plugin core
(src/platformAccessory.ts `ChargerAccessory`, src/api.ts `EoMiniApi`).

Numbers that the TypeScript source compares with `===` are modelled as
`Nat` (HAP characteristic enumeration values) or `Int` (device fields,
timestamps).  Asynchronous effects are made explicit: each characteristic
handler returns, besides the updated accessory, the list of host
notifications it emitted, the list of remote API calls it initiated
synchronously during the handler body (a TypeScript `async` function runs
synchronously up to its first `await`, so `promise = this.doEnableOrDisable(...)`
starts the network call at that point), the list of tasks it added to the
command queue, and whether it armed the 150 ms revert timer.
-/

namespace EoMini

/-! HAP `Characteristic.LockCurrentState` enumeration values. -/
namespace LockCurrentState

def UNSECURED : Nat := 0

def SECURED : Nat := 1

def JAMMED : Nat := 2

def UNKNOWN : Nat := 3

end LockCurrentState

/-! HAP `Characteristic.LockTargetState` enumeration values. -/
namespace LockTargetState

def UNSECURED : Nat := 0

def SECURED : Nat := 1

end LockTargetState

/-! HAP `Characteristic.ContactSensorState` enumeration values. -/
namespace ContactSensorState

def CONTACT_DETECTED : Nat := 0

def CONTACT_NOT_DETECTED : Nat := 1

end ContactSensorState

/-- `ResponseMini` from src/api.ts: the device snapshot. -/
structure ResponseMini where
  address : String
  isDisabled : Int
  ct1 : Int
  ct2 : Int
  ct3 : Int
  advertisedRate : Int
  voltage : Int
  timezone : String
  chargerAddress : String
  hubAddress : String
  chargerModel : Int
  hubModel : Int
  hubSerial : String
deriving DecidableEq, Repr

/-- `ResponseSession` from src/api.ts: the active charging session record. -/
structure ResponseSession where
  USID : Int
  CPID : Int
  PiTime : Int
  ESTime : Int
  ESCost : Int
  ESKWH : Int
  ChargingTime : Int
  PayR1 : Int
  PayR2 : Int
  PayR3 : Int
  PayR4 : Int
  ULoc : String
  Location : String
  Voltage : Int
  IsPaused : Bool
  IsOverridden : Bool
deriving DecidableEq, Repr

/-- The `states` record of `ChargerAccessory` (src/platformAccessory.ts). -/
structure States where
  LockCurrentState : Nat
  LockTargetState : Nat
  On : Bool
  ContactSensorState : Nat
deriving DecidableEq, Repr

/-- The mutable fields of `ChargerAccessory` that the embedded handlers read
and write: the current device snapshot, the fetched session (`null` as
`none`), the alive flag, the `states` record and the one-shot
`resettingOutletOff` guard flag. -/
structure ChargerAccessory where
  device : ResponseMini
  session : Option ResponseSession
  sessionAlive : Bool
  states : States
  resettingOutletOff : Bool
deriving DecidableEq, Repr

/-- A downstream notification delivered to the host through
`updateCharacteristic` (or, for `outletOn`, also through
`Characteristic.setValue`). -/
inductive Notification where
  | lockCurrent (v : Nat)
  | lockTarget (v : Nat)
  | outletOn (v : Bool)
  | contact (v : Nat)
deriving DecidableEq, Repr

/-- Whether a notification targets the `LockTargetState` characteristic. -/
def Notification.isLockTarget : Notification → Bool
  | .lockTarget _ => true
  | _ => false

/-- A remote API call of `EoMiniApi` reachable from the embedded handlers. -/
inductive ApiCall where
  | session
  | sessionAlive
  | miniEnable (address : String)
  | miniDisable (address : String)
  | sessionPause
  | sessionUnpause
deriving DecidableEq, Repr

/-- A closure added to the `PQueue` command queue by one of the handlers.
`lockComplete value` is the task queued by `setLockTargetState` (awaits the
already-started enable/disable promise and settles `LockCurrentState`);
`outletComplete` is the task queued by `setOutletOn` (awaits the
pause/unpause promise, logging failures); `checkSessionTask` is the task
queued by `checkSession` (fetches session and alive flag, then reconciles). -/
inductive QueuedTask where
  | lockComplete (value : Nat)
  | outletComplete
  | checkSessionTask
deriving DecidableEq, Repr

/-- `updateState` (src/platformAccessory.ts lines 119-153), per state key:
given the currently stored value of the key and the incoming value, returns
the new stored value and whether `updateCharacteristic` was invoked.  The
early return fires when the value is unchanged and `forced` is false; when
the value is recorded, a notification is sent unless
`skipCharacteristicUpdate` is set. -/
def updateState {α : Type} [DecidableEq α]
    (stored value : α) (skipCharacteristicUpdate forced : Bool) : α × Bool :=
  if value = stored ∧ forced = false then
    (stored, false)
  else
    (value, !skipCharacteristicUpdate)

/-- `computeLockCurrentState` (lines 175-179). -/
def computeLockCurrentState (device : ResponseMini) : Nat :=
  if device.isDisabled = 1 then LockCurrentState.SECURED
  else LockCurrentState.UNSECURED

/-- `computeOutletOn` (lines 240-246). -/
def computeOutletOn (session : Option ResponseSession) : Bool :=
  match session with
  | none => false
  | some s => !s.IsPaused

/-- `computeContactSensorState` (lines 301-309). -/
def computeContactSensorState (sessionAlive : Bool) : Nat :=
  if sessionAlive then ContactSensorState.CONTACT_DETECTED
  else ContactSensorState.CONTACT_NOT_DETECTED

/-- `computeAll` (lines 166-173): the reconciliation pass.  Note that the
`LockTargetState` update passes `true` as the fourth positional argument of
`updateState`, which is `skipCharacteristicUpdate` (the `forced` flag, fifth
parameter, keeps its default `false`).  Returns the updated accessory and
the notifications emitted, in source order. -/
def computeAll (a : ChargerAccessory) : ChargerAccessory × List Notification :=
  let lc := updateState a.states.LockCurrentState (computeLockCurrentState a.device) false false
  let lt := updateState a.states.LockTargetState (computeLockCurrentState a.device) true false
  let po := updateState a.states.On (computeOutletOn a.session) false false
  let cs := updateState a.states.ContactSensorState (computeContactSensorState a.sessionAlive) false false
  ({ a with
      states :=
        { LockCurrentState := lc.1, LockTargetState := lt.1,
          On := po.1, ContactSensorState := cs.1 } },
    (if lc.2 then [Notification.lockCurrent lc.1] else [])
      ++ (if lt.2 then [Notification.lockTarget lt.1] else [])
      ++ (if po.2 then [Notification.outletOn po.1] else [])
      ++ (if cs.2 then [Notification.contact cs.1] else []))

/-- Result of one characteristic handler (or of the revert timer callback):
the accessory afterwards, the notifications emitted to the host, the API
calls initiated synchronously inside the handler body (before and outside
any queued task), the tasks added to the command queue, and whether the
150 ms `setTimeout` revert of `setOutletOn` was armed. -/
structure HandlerResult where
  accessory : ChargerAccessory
  notifications : List Notification
  immediateCalls : List ApiCall
  queued : List QueuedTask
  scheduledRevert : Bool
deriving DecidableEq, Repr

/-- A handler return that changes nothing and performs no effect. -/
def noopResult (a : ChargerAccessory) : HandlerResult :=
  { accessory := a, notifications := [], immediateCalls := [], queued := [],
    scheduledRevert := false }

/-- `setLockTargetState` (lines 197-230).  The guard ignores the command when
`value` equals the stored target OR the stored current state.  Otherwise the
target is updated optimistically through `updateState` (emitting a
notification), and for SECURED/UNSECURED the call
`promise = this.doEnableOrDisable(...)` starts `miniDisable`/`miniEnable`
synchronously, after which the completion task is queued; for any other
value the handler logs an error and returns before `queue.add`. -/
def setLockTargetState (a : ChargerAccessory) (value : Nat) : HandlerResult :=
  if value = a.states.LockTargetState ∨ value = a.states.LockCurrentState then
    noopResult a
  else
    let lt := updateState a.states.LockTargetState value false false
    let a1 := { a with states := { a.states with LockTargetState := lt.1 } }
    let ns := if lt.2 then [Notification.lockTarget lt.1] else []
    if value = LockTargetState.SECURED then
      { accessory := a1, notifications := ns,
        immediateCalls := [ApiCall.miniDisable a.device.address],
        queued := [QueuedTask.lockComplete value], scheduledRevert := false }
    else if value = LockTargetState.UNSECURED then
      { accessory := a1, notifications := ns,
        immediateCalls := [ApiCall.miniEnable a.device.address],
        queued := [QueuedTask.lockComplete value], scheduledRevert := false }
    else
      { accessory := a1, notifications := ns, immediateCalls := [],
        queued := [], scheduledRevert := false }

/-- `setOutletOn` (lines 255-299).  When the session is not alive: a pending
`resettingOutletOff` guard is consumed and the call returns; otherwise the
guard is set and the 150 ms revert timer armed, with no API call and no
queued task.  When alive: an unchanged value is ignored; otherwise the `On`
state is updated optimistically (emitting a notification),
`promise = this.doPauseOrUnpause(...)` starts `sessionPause`/`sessionUnpause`
synchronously, and the completion task is queued. -/
def setOutletOn (a : ChargerAccessory) (value : Bool) : HandlerResult :=
  if a.sessionAlive = false then
    if a.resettingOutletOff then
      noopResult { a with resettingOutletOff := false }
    else
      { accessory := { a with resettingOutletOff := true }, notifications := [],
        immediateCalls := [], queued := [], scheduledRevert := true }
  else if value = a.states.On then
    noopResult a
  else
    let po := updateState a.states.On value false false
    let a1 := { a with states := { a.states with On := po.1 } }
    let ns := if po.2 then [Notification.outletOn po.1] else []
    if value = false then
      { accessory := a1, notifications := ns,
        immediateCalls := [ApiCall.sessionPause],
        queued := [QueuedTask.outletComplete], scheduledRevert := false }
    else
      { accessory := a1, notifications := ns,
        immediateCalls := [ApiCall.sessionUnpause],
        queued := [QueuedTask.outletComplete], scheduledRevert := false }

/-- The revert timer callback of `setOutletOn` (lines 264-267): it calls
`updateState('outlet', 'On', false, true)` — with `skipCharacteristicUpdate`
set, so the stored value is corrected silently — and then
`setValue(false)` on the `On` characteristic, which emits the value to the
host and re-enters the `setOutletOn` handler with `false`. -/
def runRevert (a : ChargerAccessory) : HandlerResult :=
  let po := updateState a.states.On false true false
  let a1 := { a with states := { a.states with On := po.1 } }
  let r := setOutletOn a1 false
  { r with notifications := Notification.outletOn false :: r.notifications }

/-- `checkSession` (lines 155-164): logs and adds the session-check task to
the command queue; no API call is made in the handler body itself. -/
def checkSession (a : ChargerAccessory) : HandlerResult :=
  { accessory := a, notifications := [], immediateCalls := [],
    queued := [QueuedTask.checkSessionTask], scheduledRevert := false }

/-- Outcome oracle for the remote calls a queued task performs or awaits:
whether the enable/disable (or pause/unpause) promise it awaits resolves,
the result of `client.session()` (`Except.error` models the thrown request
error), and the boolean `client.sessionAlive()` resolves to (that method
catches internally and never rejects). -/
structure ApiOutcome where
  promiseOk : Bool
  sessionResult : Except String ResponseSession
  aliveResult : Bool

/-- Execution of a queued task against an accessory, given the API outcome.
`Except.error` models the task's promise rejecting.  The task queued by
`setLockTargetState` wraps its body in try/catch: on success it stores the
commanded value into `LockCurrentState`, on failure the `UNKNOWN` sentinel.
The task queued by `setOutletOn` catches and only logs.  The session-check
task has no try/catch around `client.session()`, so its failure rejects the
task; on success it stores the session and alive flag and runs `computeAll`. -/
def runTask (t : QueuedTask) (o : ApiOutcome) (a : ChargerAccessory) :
    Except String (ChargerAccessory × List Notification) :=
  match t with
  | .lockComplete value =>
    if o.promiseOk then
      let lc := updateState a.states.LockCurrentState value false false
      .ok ({ a with states := { a.states with LockCurrentState := lc.1 } },
        if lc.2 then [Notification.lockCurrent lc.1] else [])
    else
      let lc := updateState a.states.LockCurrentState LockCurrentState.UNKNOWN false false
      .ok ({ a with states := { a.states with LockCurrentState := lc.1 } },
        if lc.2 then [Notification.lockCurrent lc.1] else [])
  | .outletComplete => .ok (a, [])
  | .checkSessionTask =>
    match o.sessionResult with
    | .error e => .error e
    | .ok sess =>
      let a1 := { a with session := some sess, sessionAlive := o.aliveResult }
      .ok (computeAll a1)

/-- The API calls a queued task itself initiates while running (as opposed
to calls started in the handler body before the task was queued): the
completion tasks only await an already-started promise; the session-check
task calls `client.session()` and, if that resolved, `client.sessionAlive()`. -/
def taskApiCalls (t : QueuedTask) (o : ApiOutcome) : List ApiCall :=
  match t with
  | .lockComplete _ => []
  | .outletComplete => []
  | .checkSessionTask =>
    match o.sessionResult with
    | .error _ => [ApiCall.session]
    | .ok _ => [ApiCall.session, ApiCall.sessionAlive]

/-- `AuthSession` from src/api.ts, with the expiry as an absolute timestamp
(milliseconds); the derived header is a function of the token. -/
structure AuthSession where
  token : String
  expires : Int
deriving DecidableEq, Repr

/-- The `isAuthSessionValid` getter (src/api.ts lines 190-192):
`!this._authSession || this._authSession.expires > new Date()`. -/
def isAuthSessionValid (s : Option AuthSession) (now : Int) : Bool :=
  match s with
  | none => true
  | some ss => decide (now < ss.expires)

/-- The `authSessionHeader` getter (lines 197-203): `undefined` when the
session is invalid, else the cached session's bearer header (also
`undefined` when no session is cached, through the optional chaining). -/
def authSessionHeader (s : Option AuthSession) (now : Int) : Option String :=
  if isAuthSessionValid s now = false then none
  else s.map (fun ss => "Bearer " ++ ss.token)

/-- An HTTP-level event of `EoMiniApi`: a POST to the `/token` endpoint made
by `auth()`, or the fetch of the requested endpoint. -/
inductive HttpEvent where
  | authCall
  | apiRequest (endpoint : String)
deriving DecidableEq, Repr

/-- The HTTP trace of `request` (src/api.ts lines 273-293) up to the fetch
of the requested endpoint: `auth()` is awaited first exactly when
`authSessionHeader` is `undefined`; when `auth()` rejects (`authOk = false`)
the request is never sent. -/
def request (s : Option AuthSession) (now : Int) (endpoint : String)
    (authOk : Bool) : List HttpEvent :=
  if (authSessionHeader s now).isNone then
    if authOk then [HttpEvent.authCall, HttpEvent.apiRequest endpoint]
    else [HttpEvent.authCall]
  else [HttpEvent.apiRequest endpoint]

/-! Concrete instances used by counterexamples and witnesses. -/

/-- A concrete device snapshot with `isDisabled = 0`. -/
def exDevice : ResponseMini :=
  { address := "A1", isDisabled := 0, ct1 := 0, ct2 := 0, ct3 := 0,
    advertisedRate := 32, voltage := 230, timezone := "UTC",
    chargerAddress := "CH1", hubAddress := "HB1", chargerModel := 2,
    hubModel := 3, hubSerial := "HS1" }

/-- A concrete session record, not paused. -/
def exSession : ResponseSession :=
  { USID := 7, CPID := 9, PiTime := 0, ESTime := 0, ESCost := 0, ESKWH := 0,
    ChargingTime := 0, PayR1 := 0, PayR2 := 0, PayR3 := 0, PayR4 := 0,
    ULoc := "U", Location := "L", Voltage := 230, IsPaused := false,
    IsOverridden := false }

/-- Accessory in the initial state of the constructor: both lock states
`UNSECURED`, outlet off, no contact, no session, guard flag clear. -/
def exAccessory : ChargerAccessory :=
  { device := exDevice, session := none, sessionAlive := false,
    states :=
      { LockCurrentState := 0, LockTargetState := 0, On := false,
        ContactSensorState := 1 },
    resettingOutletOff := false }

/-- Accessory with a disabled device and a stale target, so the
reconciliation value `SECURED` differs from the stored target. -/
def exAccessoryDisabled : ChargerAccessory :=
  { exAccessory with device := { exDevice with isDisabled := 1 } }

/-- Accessory whose target and current lock states diverge (as they do
while a user command is in flight). -/
def exAccessoryDiverged : ChargerAccessory :=
  { exAccessory with
    states :=
      { LockCurrentState := 1, LockTargetState := 0, On := false,
        ContactSensorState := 1 } }

/-- Accessory with an alive session, outlet off. -/
def exAccessoryAlive : ChargerAccessory :=
  { exAccessory with sessionAlive := true, session := some exSession }

/-- Outcome in which every remote call succeeds. -/
def exOutcome : ApiOutcome :=
  { promiseOk := true, sessionResult := .ok exSession, aliveResult := true }

/-- Outcome in which the awaited promise rejects and `client.session()`
throws its request error. -/
def exOutcomeFail : ApiOutcome :=
  { promiseOk := false, sessionResult := .error "Request failed: boom",
    aliveResult := false }

/-! Helper lemmas about `updateState`, shared by several proofs. -/

/-- The stored value after `updateState` is always the incoming value
(the early return only fires when the two already coincide). -/
theorem updateState_fst {α : Type} [DecidableEq α]
    (stored value : α) (skip forced : Bool) :
    (updateState stored value skip forced).1 = value := by
  unfold updateState
  split_ifs with h
  · exact h.1.symm
  · rfl

/-- With `skipCharacteristicUpdate` set, `updateState` never notifies. -/
theorem updateState_skip_snd {α : Type} [DecidableEq α]
    (stored value : α) (forced : Bool) :
    (updateState stored value true forced).2 = false := by
  unfold updateState
  split_ifs <;> rfl

/-- C5: `updateState` on an unchanged value without `forced` leaves the
stored value in place and sends no notification, so two identical
consecutive emissions yield exactly one notification; with `forced` the
value is always recorded, and a notification is sent whenever
`skipCharacteristicUpdate` is false, even for an unchanged value. -/
theorem updateState_change_suppression {α : Type} [DecidableEq α]
    (s v : α) (skip : Bool) (h : v ≠ s) :
    updateState s s skip false = (s, false)
    ∧ (updateState s v skip true).1 = v
    ∧ updateState s s false true = (s, true)
    ∧ updateState s v false false = (v, true)
    ∧ updateState v v false false = (v, false) := by
  refine ⟨?_, updateState_fst s v skip true, ?_, ?_, ?_⟩ <;>
    simp [updateState, h]

/-- Witness for C5 at concrete values. -/
theorem updateState_change_suppression_witness :
    (1 : Nat) ≠ 0
    ∧ (updateState (0 : Nat) 0 false false = (0, false)
      ∧ (updateState (0 : Nat) 1 false true).1 = 1
      ∧ updateState (0 : Nat) 0 false true = (0, true)
      ∧ updateState (0 : Nat) 1 false false = (1, true)
      ∧ updateState (1 : Nat) 1 false false = (1, false)) :=
  ⟨by decide, updateState_change_suppression 0 1 false (by decide)⟩

/-- C9: immediately after every reconciliation pass, the stored
`LockCurrentState` is `SECURED` exactly when the device snapshot has
`isDisabled = 1`, and `UNSECURED` otherwise, for every accessory state. -/
theorem computeAll_lockCurrent_iff (a : ChargerAccessory) :
    (computeAll a).1.states.LockCurrentState
        = (if a.device.isDisabled = 1 then LockCurrentState.SECURED
           else LockCurrentState.UNSECURED)
    ∧ ((computeAll a).1.states.LockCurrentState = LockCurrentState.SECURED
        ↔ a.device.isDisabled = 1) := by
  have h1 : (computeAll a).1.states.LockCurrentState
      = computeLockCurrentState a.device :=
    updateState_fst a.states.LockCurrentState (computeLockCurrentState a.device) false false
  rw [h1]
  unfold computeLockCurrentState
  by_cases h : a.device.isDisabled = 1 <;>
    simp [h, LockCurrentState.SECURED, LockCurrentState.UNSECURED]

/-- Witness for C9 at a concrete accessory. -/
theorem computeAll_lockCurrent_iff_witness :
    (computeAll exAccessoryDisabled).1.states.LockCurrentState
        = (if exAccessoryDisabled.device.isDisabled = 1 then LockCurrentState.SECURED
           else LockCurrentState.UNSECURED)
    ∧ ((computeAll exAccessoryDisabled).1.states.LockCurrentState = LockCurrentState.SECURED
        ↔ exAccessoryDisabled.device.isDisabled = 1) :=
  computeAll_lockCurrent_iff exAccessoryDisabled

/-- C3 counterexample: a reconciliation pass never emits a
`LockTargetState` notification — neither when the reconciled value differs
from the stored target (here the device is disabled while the target is
still `UNSECURED`) nor when it is unchanged — because `computeAll` passes
`true` for `skipCharacteristicUpdate`, not for `forced`. -/
theorem computeAll_lockTarget_cex :
    computeLockCurrentState exAccessoryDisabled.device
        ≠ exAccessoryDisabled.states.LockTargetState
    ∧ (computeAll exAccessoryDisabled).2.filter
        (fun n => Notification.isLockTarget n) = []
    ∧ (computeAll exAccessory).2.filter
        (fun n => Notification.isLockTarget n) = [] := by
  decide

/-- C3 amended: the `LockTargetState` update in `computeAll` is made with
`skipCharacteristicUpdate = true` and `forced = false`: the stored target
does mirror the reconciled lock state after every pass, but no
`LockTargetState` notification is ever emitted, changed or not. -/
theorem computeAll_lockTarget_amended (a : ChargerAccessory) :
    (computeAll a).1.states.LockTargetState = computeLockCurrentState a.device
    ∧ (computeAll a).2.filter (fun n => Notification.isLockTarget n) = [] := by
  constructor
  · exact updateState_fst a.states.LockTargetState (computeLockCurrentState a.device) true false
  · have h2 := updateState_skip_snd a.states.LockTargetState (computeLockCurrentState a.device) false
    simp only [computeAll, h2, if_false, List.filter_append]
    split_ifs <;> simp_all [Notification.isLockTarget]

/-- C2 counterexample: with target `UNSECURED` and current `SECURED`
(divergent as during an in-flight command), `setLockTargetState 1` matches
the current state only — not both — yet the handler is a complete no-op,
because the source guard is a disjunction; and `setLockTargetState 2`,
which equals neither stored state, issues no enable/disable command. -/
theorem setLockTargetState_guard_cex :
    (1 : Nat) ≠ exAccessoryDiverged.states.LockTargetState
    ∧ ¬((1 : Nat) = exAccessoryDiverged.states.LockTargetState
        ∧ (1 : Nat) = exAccessoryDiverged.states.LockCurrentState)
    ∧ setLockTargetState exAccessoryDiverged 1 = noopResult exAccessoryDiverged
    ∧ ¬((2 : Nat) = exAccessoryDiverged.states.LockTargetState
        ∧ (2 : Nat) = exAccessoryDiverged.states.LockCurrentState)
    ∧ (setLockTargetState exAccessoryDiverged 2).immediateCalls = []
    ∧ (setLockTargetState exAccessoryDiverged 2).queued = [] := by
  decide

/-- C2 amended: `setLockTargetState value` is a no-op exactly when `value`
equals the stored `LockTargetState` or the stored `LockCurrentState`; in
every other case the target is optimistically updated and emitted
immediately, and an enable/disable command is issued exactly when the value
is `SECURED` or `UNSECURED`. -/
theorem setLockTargetState_guard_amended (a : ChargerAccessory) (v : Nat) :
    ((v = a.states.LockTargetState ∨ v = a.states.LockCurrentState) →
        setLockTargetState a v = noopResult a)
    ∧ (v ≠ a.states.LockTargetState → v ≠ a.states.LockCurrentState →
        (setLockTargetState a v).accessory.states.LockTargetState = v
        ∧ (setLockTargetState a v).notifications = [Notification.lockTarget v]
        ∧ (v = LockTargetState.SECURED →
            (setLockTargetState a v).immediateCalls
                = [ApiCall.miniDisable a.device.address]
            ∧ (setLockTargetState a v).queued = [QueuedTask.lockComplete v])
        ∧ (v = LockTargetState.UNSECURED →
            (setLockTargetState a v).immediateCalls
                = [ApiCall.miniEnable a.device.address]
            ∧ (setLockTargetState a v).queued = [QueuedTask.lockComplete v])
        ∧ (v ≠ LockTargetState.SECURED → v ≠ LockTargetState.UNSECURED →
            (setLockTargetState a v).immediateCalls = []
            ∧ (setLockTargetState a v).queued = [])) := by
  constructor
  · intro h
    simp [setLockTargetState, h]
  · intro h1 h2
    by_cases hv1 : v = LockTargetState.SECURED <;>
      by_cases hv0 : v = LockTargetState.UNSECURED <;>
        simp_all [setLockTargetState, updateState,
          LockTargetState.SECURED, LockTargetState.UNSECURED]

/-- Witness for C2 amended: a secure command from the initial state updates
the target, emits it and starts `miniDisable`; a command equal to the
stored target is a no-op. -/
theorem setLockTargetState_guard_amended_witness :
    (setLockTargetState exAccessory 1).accessory.states.LockTargetState = 1
    ∧ (setLockTargetState exAccessory 1).notifications = [Notification.lockTarget 1]
    ∧ (setLockTargetState exAccessory 1).immediateCalls = [ApiCall.miniDisable "A1"]
    ∧ (setLockTargetState exAccessory 1).queued = [QueuedTask.lockComplete 1]
    ∧ setLockTargetState exAccessoryDiverged 0 = noopResult exAccessoryDiverged := by
  have h := (setLockTargetState_guard_amended exAccessory 1).2 (by decide) (by decide)
  have h0 := (setLockTargetState_guard_amended exAccessoryDiverged 0).1 (Or.inl (by decide))
  exact ⟨h.1, h.2.1, (h.2.2.1 (by decide)).1, (h.2.2.1 (by decide)).2, h0⟩

/-- C10: calling `setLockTargetState` with a value that is neither
`SECURED` nor `UNSECURED` and differs from both stored lock states still
updates and emits the target optimistically, but starts no API call,
queues no task, and leaves `LockCurrentState` unchanged, so target and
current end up divergent. -/
theorem setLockTargetState_invalid_value (a : ChargerAccessory) (v : Nat)
    (h1 : v ≠ a.states.LockTargetState) (h2 : v ≠ a.states.LockCurrentState)
    (h3 : v ≠ LockTargetState.SECURED) (h4 : v ≠ LockTargetState.UNSECURED) :
    (setLockTargetState a v).accessory.states.LockTargetState = v
    ∧ (setLockTargetState a v).notifications = [Notification.lockTarget v]
    ∧ (setLockTargetState a v).immediateCalls = []
    ∧ (setLockTargetState a v).queued = []
    ∧ (setLockTargetState a v).accessory.states.LockCurrentState
        = a.states.LockCurrentState
    ∧ (setLockTargetState a v).accessory.states.LockTargetState
        ≠ (setLockTargetState a v).accessory.states.LockCurrentState := by
  simp_all [setLockTargetState, updateState,
    LockTargetState.SECURED, LockTargetState.UNSECURED]

/-- Witness for C10 at value `2` from the initial accessory state. -/
theorem setLockTargetState_invalid_value_witness :
    (setLockTargetState exAccessory 2).accessory.states.LockTargetState = 2
    ∧ (setLockTargetState exAccessory 2).notifications = [Notification.lockTarget 2]
    ∧ (setLockTargetState exAccessory 2).immediateCalls = []
    ∧ (setLockTargetState exAccessory 2).queued = []
    ∧ (setLockTargetState exAccessory 2).accessory.states.LockCurrentState
        = exAccessory.states.LockCurrentState
    ∧ (setLockTargetState exAccessory 2).accessory.states.LockTargetState
        ≠ (setLockTargetState exAccessory 2).accessory.states.LockCurrentState :=
  setLockTargetState_invalid_value exAccessory 2
    (by decide) (by decide) (by decide) (by decide)

/-- C1 counterexample: a lock command from the initial state starts the
`miniDisable` network call synchronously in the handler body (the
`promise = this.doEnableOrDisable(...)` line runs before `queue.add`),
while the task it queues initiates no API call of its own — it only awaits
the already-started promise; likewise for the outlet command.  The
enable/disable and pause/unpause calls therefore do not execute inside a
task admitted to the command queue, so they are not serialized against,
e.g., a polling task already running. -/
theorem queue_bypass_cex :
    (setLockTargetState exAccessory 1).immediateCalls = [ApiCall.miniDisable "A1"]
    ∧ (setLockTargetState exAccessory 1).queued = [QueuedTask.lockComplete 1]
    ∧ taskApiCalls (QueuedTask.lockComplete 1) exOutcome = []
    ∧ (setOutletOn exAccessoryAlive true).immediateCalls = [ApiCall.sessionUnpause]
    ∧ (setOutletOn exAccessoryAlive true).queued = [QueuedTask.outletComplete]
    ∧ taskApiCalls QueuedTask.outletComplete exOutcome = [] := by
  decide

/-- C1 amended: only the polling session check routes its API calls
(`session`, `sessionAlive`) through a queued task; `setLockTargetState`
and `setOutletOn` initiate their `miniEnable`/`miniDisable` or
`sessionPause`/`sessionUnpause` call synchronously at handler invocation,
outside the queue, and the completion task they queue performs no API call
itself, so those network calls are not serialized by the command queue. -/
theorem queue_admission_amended (a : ChargerAccessory) (o : ApiOutcome)
    (v : Nat) (b : Bool)
    (h1 : v ≠ a.states.LockTargetState) (h2 : v ≠ a.states.LockCurrentState)
    (h3 : v = LockTargetState.SECURED ∨ v = LockTargetState.UNSECURED)
    (h4 : a.sessionAlive = true) (h5 : b ≠ a.states.On) :
    (checkSession a).immediateCalls = []
    ∧ (checkSession a).queued = [QueuedTask.checkSessionTask]
    ∧ taskApiCalls QueuedTask.checkSessionTask o ≠ []
    ∧ (setLockTargetState a v).immediateCalls
        = [if v = LockTargetState.SECURED then ApiCall.miniDisable a.device.address
           else ApiCall.miniEnable a.device.address]
    ∧ (setLockTargetState a v).queued = [QueuedTask.lockComplete v]
    ∧ taskApiCalls (QueuedTask.lockComplete v) o = []
    ∧ (setOutletOn a b).immediateCalls
        = [if b then ApiCall.sessionUnpause else ApiCall.sessionPause]
    ∧ (setOutletOn a b).queued = [QueuedTask.outletComplete]
    ∧ taskApiCalls QueuedTask.outletComplete o = [] := by
  refine ⟨rfl, rfl, ?_, ?_, ?_, rfl, ?_, ?_, rfl⟩
  · unfold taskApiCalls
    cases o.sessionResult <;> simp
  · rcases h3 with hv | hv <;>
      simp_all [setLockTargetState, updateState,
        LockTargetState.SECURED, LockTargetState.UNSECURED]
  · rcases h3 with hv | hv <;>
      simp_all [setLockTargetState, updateState,
        LockTargetState.SECURED, LockTargetState.UNSECURED]
  · cases b <;> simp_all [setOutletOn, updateState]
  · cases b <;> simp_all [setOutletOn, updateState]

/-- Witness for C1 amended at concrete inputs. -/
theorem queue_admission_amended_witness :
    (checkSession exAccessoryAlive).immediateCalls = []
    ∧ (checkSession exAccessoryAlive).queued = [QueuedTask.checkSessionTask]
    ∧ taskApiCalls QueuedTask.checkSessionTask exOutcome ≠ []
    ∧ (setLockTargetState exAccessoryAlive 1).immediateCalls
        = [if (1 : Nat) = LockTargetState.SECURED
           then ApiCall.miniDisable exAccessoryAlive.device.address
           else ApiCall.miniEnable exAccessoryAlive.device.address]
    ∧ (setLockTargetState exAccessoryAlive 1).queued = [QueuedTask.lockComplete 1]
    ∧ taskApiCalls (QueuedTask.lockComplete 1) exOutcome = []
    ∧ (setOutletOn exAccessoryAlive true).immediateCalls
        = [if true then ApiCall.sessionUnpause else ApiCall.sessionPause]
    ∧ (setOutletOn exAccessoryAlive true).queued = [QueuedTask.outletComplete]
    ∧ taskApiCalls QueuedTask.outletComplete exOutcome = [] :=
  queue_admission_amended exAccessoryAlive exOutcome 1 true
    (by decide) (by decide) (Or.inl (by decide)) (by decide) (by decide)

/-- C4 counterexample: the session-check task queued by `checkSession`
wraps no try/catch around `client.session()`, so when that call rejects the
queued task itself rejects, contrary to the claim that every queued task
handles its errors internally and never rejects. -/
theorem checkSessionTask_rejects_cex :
    runTask QueuedTask.checkSessionTask exOutcomeFail exAccessory
      = Except.error "Request failed: boom" := rfl

/-- C4 amended: the completion tasks queued by `setLockTargetState` and
`setOutletOn` catch their errors internally and always resolve, but the
session-check task propagates the rejection of `client.session()`. -/
theorem queued_tasks_error_handling_amended (o : ApiOutcome)
    (a : ChargerAccessory) (v : Nat) (e : String)
    (he : o.sessionResult = Except.error e) :
    (runTask (QueuedTask.lockComplete v) o a).isOk = true
    ∧ (runTask QueuedTask.outletComplete o a).isOk = true
    ∧ runTask QueuedTask.checkSessionTask o a = Except.error e := by
  refine ⟨?_, rfl, ?_⟩
  · unfold runTask
    split_ifs <;> rfl
  · simp [runTask, he]

/-- Witness for C4 amended under the failing outcome. -/
theorem queued_tasks_error_handling_amended_witness :
    exOutcomeFail.sessionResult = Except.error "Request failed: boom"
    ∧ ((runTask (QueuedTask.lockComplete 1) exOutcomeFail exAccessory).isOk = true
      ∧ (runTask QueuedTask.outletComplete exOutcomeFail exAccessory).isOk = true
      ∧ runTask QueuedTask.checkSessionTask exOutcomeFail exAccessory
          = Except.error "Request failed: boom") :=
  ⟨rfl, queued_tasks_error_handling_amended exOutcomeFail exAccessory 1
    "Request failed: boom" rfl⟩

/-- C8: after a valid, state-changing `setLockTargetState value`, the queued
completion task resolves and leaves `LockCurrentState` equal to `value`
when the enable/disable promise succeeded, and equal to the `UNKNOWN`
sentinel when it failed. -/
theorem setLockTargetState_completion (a : ChargerAccessory) (v : Nat)
    (o : ApiOutcome)
    (h1 : v ≠ a.states.LockTargetState) (h2 : v ≠ a.states.LockCurrentState)
    (h3 : v = LockTargetState.SECURED ∨ v = LockTargetState.UNSECURED) :
    (setLockTargetState a v).queued = [QueuedTask.lockComplete v]
    ∧ (o.promiseOk = true →
        (runTask (QueuedTask.lockComplete v) o
            (setLockTargetState a v).accessory).toOption.map
          (fun r => r.1.states.LockCurrentState) = some v)
    ∧ (o.promiseOk = false →
        (runTask (QueuedTask.lockComplete v) o
            (setLockTargetState a v).accessory).toOption.map
          (fun r => r.1.states.LockCurrentState) = some LockCurrentState.UNKNOWN) := by
  refine ⟨?_, ?_, ?_⟩
  · rcases h3 with hv | hv <;>
      simp_all [setLockTargetState, updateState,
        LockTargetState.SECURED, LockTargetState.UNSECURED]
  · intro hp
    simp [runTask, hp, Except.toOption,
      updateState_fst (setLockTargetState a v).accessory.states.LockCurrentState v false false]
  · intro hp
    simp [runTask, hp, Except.toOption,
      updateState_fst (setLockTargetState a v).accessory.states.LockCurrentState
        LockCurrentState.UNKNOWN false false]

/-- Witness for C8: both outcomes at a concrete secure command. -/
theorem setLockTargetState_completion_witness :
    ((setLockTargetState exAccessory 1).queued = [QueuedTask.lockComplete 1]
      ∧ (runTask (QueuedTask.lockComplete 1) exOutcome
            (setLockTargetState exAccessory 1).accessory).toOption.map
          (fun r => r.1.states.LockCurrentState) = some 1)
    ∧ (runTask (QueuedTask.lockComplete 1) exOutcomeFail
          (setLockTargetState exAccessory 1).accessory).toOption.map
        (fun r => r.1.states.LockCurrentState) = some LockCurrentState.UNKNOWN := by
  have hok := setLockTargetState_completion exAccessory 1 exOutcome
    (by decide) (by decide) (Or.inl (by decide))
  have hfail := setLockTargetState_completion exAccessory 1 exOutcomeFail
    (by decide) (by decide) (Or.inl (by decide))
  exact ⟨⟨hok.1, hok.2.1 (by decide)⟩, hfail.2.2 (by decide)⟩

/-- C7: a `setOutletOn` call while the session is not alive (guard flag
clear) makes no pause/unpause API call and queues nothing, but arms the
revert timer and sets the one-shot guard; when the timer fires, the `On`
state is forced back to `false` and re-emitted through `setValue`, and the
re-entrant `setOutletOn(false)` that this triggers is absorbed by the
guard — consuming it, emitting nothing further, making no API call and
arming no new timer. -/
theorem setOutletOn_alive_guard (a : ChargerAccessory) (v : Bool)
    (hAlive : a.sessionAlive = false) (hGuard : a.resettingOutletOff = false) :
    (setOutletOn a v).immediateCalls = []
    ∧ (setOutletOn a v).queued = []
    ∧ (setOutletOn a v).notifications = []
    ∧ (setOutletOn a v).scheduledRevert = true
    ∧ (setOutletOn a v).accessory.resettingOutletOff = true
    ∧ (runRevert (setOutletOn a v).accessory).accessory.states.On = false
    ∧ (runRevert (setOutletOn a v).accessory).notifications
        = [Notification.outletOn false]
    ∧ (runRevert (setOutletOn a v).accessory).immediateCalls = []
    ∧ (runRevert (setOutletOn a v).accessory).queued = []
    ∧ (runRevert (setOutletOn a v).accessory).scheduledRevert = false
    ∧ (runRevert (setOutletOn a v).accessory).accessory.resettingOutletOff = false := by
  simp [setOutletOn, runRevert, updateState, noopResult, hAlive, hGuard]
  split_ifs with h
  · exact h
  · rfl

/-- Witness for C7: a `setOutletOn true` from the initial (not-alive)
state. -/
theorem setOutletOn_alive_guard_witness :
    (setOutletOn exAccessory true).immediateCalls = []
    ∧ (setOutletOn exAccessory true).queued = []
    ∧ (setOutletOn exAccessory true).notifications = []
    ∧ (setOutletOn exAccessory true).scheduledRevert = true
    ∧ (setOutletOn exAccessory true).accessory.resettingOutletOff = true
    ∧ (runRevert (setOutletOn exAccessory true).accessory).accessory.states.On = false
    ∧ (runRevert (setOutletOn exAccessory true).accessory).notifications
        = [Notification.outletOn false]
    ∧ (runRevert (setOutletOn exAccessory true).accessory).immediateCalls = []
    ∧ (runRevert (setOutletOn exAccessory true).accessory).queued = []
    ∧ (runRevert (setOutletOn exAccessory true).accessory).scheduledRevert = false
    ∧ (runRevert (setOutletOn exAccessory true).accessory).accessory.resettingOutletOff
        = false :=
  setOutletOn_alive_guard exAccessory true (by decide) (by decide)

/-- C6: when a cached auth session's expiry lies in the future, `request`
performs no authentication call before fetching the endpoint; when no
session is cached or the cached expiry has passed, exactly one
authentication call is made, and (when it succeeds) the endpoint fetch
follows it. -/
theorem request_auth_expiry (s : Option AuthSession) (now : Int)
    (e : String) (ok : Bool) :
    (∀ ss, s = some ss → now < ss.expires →
        request s now e ok = [HttpEvent.apiRequest e])
    ∧ ((s = none ∨ ∃ ss, s = some ss ∧ ss.expires < now) →
        (request s now e ok).count HttpEvent.authCall = 1
        ∧ request s now e true = [HttpEvent.authCall, HttpEvent.apiRequest e]) := by
  constructor
  · rintro ss rfl h
    have hv : isAuthSessionValid (some ss) now = true := by
      simp [isAuthSessionValid, h]
    simp [request, authSessionHeader, hv]
  · rintro (rfl | ⟨ss, rfl, h⟩)
    · have hh : authSessionHeader none now = none := by
        simp [authSessionHeader, isAuthSessionValid]
      cases ok <;> simp [request, hh, List.count_cons]
    · have hv : isAuthSessionValid (some ss) now = false := by
        simp [isAuthSessionValid]
        omega
      have hh : authSessionHeader (some ss) now = none := by
        simp [authSessionHeader, hv]
      cases ok <;> simp [request, hh, List.count_cons]

/-- Witness for C6: a token expiring at 100 at time 50 short-circuits
authentication; the same token at time 200, and an empty cache, each
trigger exactly one authentication before the request. -/
theorem request_auth_expiry_witness :
    request (some { token := "tok", expires := 100 }) 50 "api/session" true
        = [HttpEvent.apiRequest "api/session"]
    ∧ ((request (some { token := "tok", expires := 100 }) 200 "api/session" true).count
          HttpEvent.authCall = 1
      ∧ request (some { token := "tok", expires := 100 }) 200 "api/session" true
          = [HttpEvent.authCall, HttpEvent.apiRequest "api/session"])
    ∧ ((request none 200 "api/session" true).count HttpEvent.authCall = 1
      ∧ request none 200 "api/session" true
          = [HttpEvent.authCall, HttpEvent.apiRequest "api/session"]) := by
  refine ⟨?_, ?_, ?_⟩
  · exact (request_auth_expiry (some { token := "tok", expires := 100 }) 50
      "api/session" true).1 _ rfl (by decide)
  · exact (request_auth_expiry (some { token := "tok", expires := 100 }) 200
      "api/session" true).2 (Or.inr ⟨_, rfl, by decide⟩)
  · exact (request_auth_expiry none 200 "api/session" true).2 (Or.inl rfl)

end EoMini
